import Mathlib

/-!
Verification development for the pylua-bioxen-vm orchestration layer.

Shallow embedding of `src/pylua_vm/vm_manager.py` (class `VMManager`) and
`src/pylua_vm/interactive_session.py` (class `InteractiveSession`).

Modelling conventions:
* A Python method that can raise is embedded as a function returning the
  post-state together with `Except PyExc α`; when the method raises before
  mutating, the returned state is the input state, exactly as in the source.
* `concurrent.futures.Future` is an external collaborator; it is embedded by
  its documented semantics: status `pending / running / finished / cancelled`,
  `done()` true on `finished` and `cancelled`, `cancel()` succeeding only on
  `pending`, `result(timeout)` raising `TimeoutError` when the computation has
  not completed within `timeout`, and `CancelledError` on a cancelled future.
* The Lua interpreter itself is external: one-shot execution outcomes are an
  oracle argument, and the future returned by `executor.submit` is passed in
  as a value (its eventual completion is decided outside the manager).
* Exception messages avoid the quote characters of the Python f-strings but
  keep their content; the exception class is the Python built-in class raised.
-/

/-- Python exception classes that appear in the embedded code. -/
inductive PyExcClass
  | valueError      -- builtins.ValueError
  | runtimeError    -- builtins.RuntimeError
  | osError         -- builtins.OSError
  | futTimeoutError -- concurrent.futures.TimeoutError
  | cancelledError  -- concurrent.futures.CancelledError
  | timeoutExpired  -- subprocess.TimeoutExpired
  | queueEmpty      -- queue.Empty
  deriving Repr, DecidableEq

/-- The messages carried by the exceptions the embedded code raises. -/
inductive PyMsg
  | vmAlreadyExists (vmId : String)   -- "VM with ID <id> already exists"
  | vmNotFound (vmId : String)        -- "VM <id> not found"
  | networkedVmNotFound (vmId : String) -- "Networked VM <id> not found"
  | noRunningOp (vmId : String)       -- "No running operation found for VM <id>"
  | sessionAlreadyRunning             -- "Session already running"
  | sessionNotRunning                 -- "Session not running"
  | noMsg                             -- exceptions raised by the runtime itself
  deriving Repr, DecidableEq

/-- A raised Python exception: its class and its message. -/
structure PyExc where
  cls : PyExcClass
  msg : PyMsg
  deriving Repr, DecidableEq

/-- Structured outcome of a one-shot execution, the dict
`{success, stdout, stderr, error}` produced by `LuaProcess.execute_string`. -/
structure ExecResult where
  success : Bool
  stdout : String
  stderr : String
  error : Option String
  deriving Repr, DecidableEq

instance instDecEqExcept {ε α : Type} [DecidableEq ε] [DecidableEq α] :
    DecidableEq (Except ε α)
  | Except.error e1, Except.error e2 =>
    if h : e1 = e2 then isTrue (h ▸ rfl) else isFalse (fun c => h (Except.error.inj c))
  | Except.error _, Except.ok _ => isFalse (fun c => Except.noConfusion c)
  | Except.ok _, Except.error _ => isFalse (fun c => Except.noConfusion c)
  | Except.ok a1, Except.ok a2 =>
    if h : a1 = a2 then isTrue (h ▸ rfl) else isFalse (fun c => h (Except.ok.inj c))

/-- Status of a `concurrent.futures.Future`. -/
inductive FutureStatus
  | pending
  | running
  | finished
  | cancelled
  deriving Repr, DecidableEq

/-- Embedding of `concurrent.futures.Future`.  `completesAt` is the instant
(on an abstract clock started at the call to `result`) at which a not-yet
finished computation would complete; `none` means it does not complete within
any finite wait.  `outcome` is the value `result()` would deliver, an error
when the submitted callable raised. -/
structure Future where
  status : FutureStatus
  completesAt : Option Nat
  outcome : Except PyExc ExecResult
  deriving Repr, DecidableEq

namespace Future

/-- `Future.done()`: true once the future is finished or cancelled. -/
def done (f : Future) : Bool :=
  f.status = FutureStatus.finished || f.status = FutureStatus.cancelled

/-- `Future.cancelled()`. -/
def isCancelled (f : Future) : Bool :=
  f.status = FutureStatus.cancelled

/-- `Future.cancel()`: succeeds only on a pending future (then marks it
cancelled); returns false on a running or finished future, true on an
already-cancelled one.  Returns the flag and the updated future. -/
def cancel (f : Future) : Bool × Future :=
  match f.status with
  | FutureStatus.pending => (true, { f with status := FutureStatus.cancelled })
  | FutureStatus.running => (false, f)
  | FutureStatus.finished => (false, f)
  | FutureStatus.cancelled => (true, f)

/-- `Future.result(timeout)`: on a cancelled future raises `CancelledError`;
on a finished future delivers the outcome (re-raising a captured error);
otherwise waits: if the computation completes within `timeout` it delivers the
outcome, and on expiry it raises `concurrent.futures.TimeoutError`. -/
def result (f : Future) (timeout : Nat) : Except PyExc ExecResult :=
  match f.status with
  | FutureStatus.cancelled => Except.error ⟨PyExcClass.cancelledError, PyMsg.noMsg⟩
  | FutureStatus.finished => f.outcome
  | _ =>
    match f.completesAt with
    | some t =>
      if t ≤ timeout then f.outcome
      else Except.error ⟨PyExcClass.futTimeoutError, PyMsg.noMsg⟩
    | none => Except.error ⟨PyExcClass.futTimeoutError, PyMsg.noMsg⟩

end Future

/-- A VM instance: `LuaProcess` or its subclass `NetworkedLuaVM`, tagged by
`networked` (the code dispatches with `isinstance(vm, NetworkedLuaVM)`). -/
structure LuaProcess where
  name : String
  luaExecutable : String
  networked : Bool
  deriving Repr, DecidableEq

/-- Lookup in an insertion-ordered string-keyed map (Python `dict.get`). -/
def alookup {α : Type} (k : String) : List (String × α) → Option α
  | [] => none
  | (k', v) :: t => if k' = k then some v else alookup k t

/-- `d[k] = v` on a Python dict: replaces the binding in place if the key is
present, otherwise appends it. -/
def aupsert {α : Type} (k : String) (v : α) : List (String × α) → List (String × α)
  | [] => [(k, v)]
  | (k', v') :: t => if k' = k then (k, v) :: t else (k', v') :: aupsert k v t

theorem alookup_aupsert_self {α : Type} (k : String) (v : α) :
    ∀ l : List (String × α), alookup k (aupsert k v l) = some v := by
  intro l
  induction l with
  | nil => simp [alookup, aupsert]
  | cons hd tl ih =>
    obtain ⟨k', v'⟩ := hd
    by_cases h : k' = k
    · simp [alookup, aupsert, h]
    · simp [alookup, aupsert, h, ih]

theorem alookup_aupsert_ne {α : Type} (k k' : String) (v : α) (hne : k ≠ k') :
    ∀ l : List (String × α), alookup k' (aupsert k v l) = alookup k' l := by
  intro l
  induction l with
  | nil => simp [alookup, aupsert, hne]
  | cons hd tl ih =>
    obtain ⟨k0, v0⟩ := hd
    by_cases h : k0 = k
    · subst h
      simp [alookup, aupsert, hne]
    · simp [alookup, aupsert, h, ih]

/-- State of a `VMManager` (`src/pylua_vm/vm_manager.py`): the `vms` dict of
tracked VM instances and the `futures` dict of outstanding async operations.
`max_workers`, the executor and the lock carry no claim-relevant state beyond
what is modelled. -/
structure VMManager where
  maxWorkers : Nat
  luaExecutable : String
  vms : List (String × LuaProcess)
  futures : List (String × Future)
  deriving Repr, DecidableEq

namespace VMManager

/-- `VMManager.__init__`. -/
def init (maxWorkers : Nat) (luaExecutable : String) : VMManager :=
  ⟨maxWorkers, luaExecutable, [], []⟩

/-- `VMManager.create_vm(vm_id, networked)`: raises
`ValueError("VM with ID ... already exists")` on a duplicate id, otherwise
constructs the (networked or basic) VM and stores it under `vm_id`. -/
def create_vm (m : VMManager) (vmId : String) (networked : Bool) :
    VMManager × Except PyExc LuaProcess :=
  if (alookup vmId m.vms).isSome then
    (m, Except.error ⟨PyExcClass.valueError, PyMsg.vmAlreadyExists vmId⟩)
  else
    let vm : LuaProcess := ⟨vmId, m.luaExecutable, networked⟩
    ({ m with vms := aupsert vmId vm m.vms }, Except.ok vm)

/-- `VMManager.get_vm(vm_id)`. -/
def get_vm (m : VMManager) (vmId : String) : Option LuaProcess :=
  alookup vmId m.vms

/-- `VMManager.execute_vm_sync(vm_id, lua_code, timeout)`: raises
`ValueError("VM ... not found")` on an unknown id, otherwise returns the
outcome of `vm.execute_string(lua_code, timeout)`.  `runLua` is the external
interpreter oracle mapping (vm, code, timeout) to the structured outcome. -/
def execute_vm_sync (m : VMManager) (vmId : String) (luaCode : String)
    (timeout : Option Nat) (runLua : LuaProcess → String → Option Nat → ExecResult) :
    VMManager × Except PyExc ExecResult :=
  match alookup vmId m.vms with
  | none => (m, Except.error ⟨PyExcClass.valueError, PyMsg.vmNotFound vmId⟩)
  | some vm => (m, Except.ok (runLua vm luaCode timeout))

/-- `VMManager.execute_vm_async(vm_id, lua_code, timeout)`: raises
`ValueError("VM ... not found")` on an unknown id, otherwise submits the
execution to the pool and stores the returned future under `vm_id`,
overwriting any previously tracked future.  `fresh` is the future returned by
`executor.submit` (its completion evolves outside the manager). -/
def execute_vm_async (m : VMManager) (vmId : String) (fresh : Future) :
    VMManager × Except PyExc Future :=
  match alookup vmId m.vms with
  | none => (m, Except.error ⟨PyExcClass.valueError, PyMsg.vmNotFound vmId⟩)
  | some _ =>
    ({ m with futures := aupsert vmId fresh m.futures }, Except.ok fresh)

/-- `VMManager.start_server_vm(vm_id, port, timeout)`: raises
`ValueError("Networked VM ... not found")` unless `vm_id` is tracked and the
VM is a `NetworkedLuaVM` (`if not vm or not isinstance(vm, NetworkedLuaVM)`);
otherwise submits `vm.start_server(port, timeout)` to the pool and stores the
returned future under `vm_id`, overwriting any previously tracked future. -/
def start_server_vm (m : VMManager) (vmId : String) (_port : Nat)
    (fresh : Future) : VMManager × Except PyExc Future :=
  match alookup vmId m.vms with
  | none =>
    (m, Except.error ⟨PyExcClass.valueError, PyMsg.networkedVmNotFound vmId⟩)
  | some vm =>
    if vm.networked then
      ({ m with futures := aupsert vmId fresh m.futures }, Except.ok fresh)
    else
      (m, Except.error ⟨PyExcClass.valueError, PyMsg.networkedVmNotFound vmId⟩)

/-- `VMManager.start_client_vm(vm_id, host, port, message, timeout)`: same
guard as `start_server_vm`; on success submits
`vm.start_client(host, port, message, timeout)` and stores the returned
future under `vm_id`, overwriting any previously tracked future. -/
def start_client_vm (m : VMManager) (vmId : String) (_host : String)
    (_port : Nat) (_message : String) (fresh : Future) :
    VMManager × Except PyExc Future :=
  match alookup vmId m.vms with
  | none =>
    (m, Except.error ⟨PyExcClass.valueError, PyMsg.networkedVmNotFound vmId⟩)
  | some vm =>
    if vm.networked then
      ({ m with futures := aupsert vmId fresh m.futures }, Except.ok fresh)
    else
      (m, Except.error ⟨PyExcClass.valueError, PyMsg.networkedVmNotFound vmId⟩)

/-- `VMManager.start_p2p_vm(vm_id, local_port, peer_host, peer_port,
run_duration, timeout)`: same guard as `start_server_vm`; on success submits
`vm.start_p2p(...)` and stores the returned future under `vm_id`,
overwriting any previously tracked future. -/
def start_p2p_vm (m : VMManager) (vmId : String) (_localPort : Nat)
    (_peerHost : Option String) (_peerPort : Option Nat) (_runDuration : Nat)
    (fresh : Future) : VMManager × Except PyExc Future :=
  match alookup vmId m.vms with
  | none =>
    (m, Except.error ⟨PyExcClass.valueError, PyMsg.networkedVmNotFound vmId⟩)
  | some vm =>
    if vm.networked then
      ({ m with futures := aupsert vmId fresh m.futures }, Except.ok fresh)
    else
      (m, Except.error ⟨PyExcClass.valueError, PyMsg.networkedVmNotFound vmId⟩)

/-- `VMManager.wait_for_vm(vm_id, timeout)`: raises
`ValueError("No running operation found for VM ...")` when no future is
tracked for `vm_id`, otherwise delegates to `future.result(timeout)`. -/
def wait_for_vm (m : VMManager) (vmId : String) (timeout : Nat) :
    Except PyExc ExecResult :=
  match alookup vmId m.futures with
  | none => Except.error ⟨PyExcClass.valueError, PyMsg.noRunningOp vmId⟩
  | some f => f.result timeout

/-- `VMManager.cancel_vm(vm_id)`: if a not-yet-done future is tracked for
`vm_id`, returns `future.cancel()` (updating the shared future object);
otherwise returns false. -/
def cancel_vm (m : VMManager) (vmId : String) : VMManager × Bool :=
  match alookup vmId m.futures with
  | none => (m, false)
  | some f =>
    if f.done then (m, false)
    else
      let r := f.cancel
      ({ m with futures := aupsert vmId r.2 m.futures }, r.1)

/-- `VMManager.get_vm_status(vm_id)`: `none` when no operation is tracked,
otherwise `cancelled` / `done` / `running` from the future's state. -/
def get_vm_status (m : VMManager) (vmId : String) : Option String :=
  match alookup vmId m.futures with
  | none => none
  | some f =>
    if f.isCancelled then some "cancelled"
    else if f.done then some "done"
    else some "running"

end VMManager

/-- External process handle as seen by `InteractiveSession`: `alive` is
`poll() is None`; `diesWithinGrace` says whether the process exits within the
2-second grace window of `wait(timeout=2)` after `terminate()`. -/
structure Proc where
  alive : Bool
  diesWithinGrace : Bool
  deriving Repr, DecidableEq

/-- State of an `InteractiveSession`
(`src/pylua_vm/interactive_session.py`).  `running` is the `_running` flag;
`output_queue` is the FIFO of decoded chunks (front = oldest). -/
structure InteractiveSession where
  luaExecutable : String
  name : String
  process : Option Proc
  master_fd : Option Nat
  slave_fd : Option Nat
  output_queue : List String
  running : Bool
  deriving Repr, DecidableEq

/-- Byte-wise abstraction of Python `bytes.decode(errors="replace")`: ASCII
bytes decode to themselves, any other byte to U+FFFD.  (Reassembly of valid
multi-byte UTF-8 sequences is not modelled; what matters to the claims is
that decoding is total — undecodable bytes are substituted, never raised
on.) -/
def decodeReplace (bs : List Nat) : String :=
  String.mk (bs.map (fun b => if b < 128 then Char.ofNat b else Char.ofNat 0xFFFD))

/-- Outcome of one `os.read(master_fd, 1024)` call: bytes, or `OSError`. -/
inductive ReadOutcome
  | bytes (bs : List Nat)
  | err
  deriving Repr, DecidableEq

/-- One iteration of the reader loop as seen at `select`: either nothing is
readable within the 0.1s poll, or the descriptor is readable and the
subsequent `os.read` has the given outcome. -/
inductive ReadEvent
  | noData
  | readable (o : ReadOutcome)
  deriving Repr, DecidableEq

/-- `InteractiveSession._read_output`, the background reader loop, run over
the finite sequence of select iterations observed while `_running` stays true
(the list ends when the flag is cleared).  Returns the chunks pushed onto the
output queue, in production order, together with the exception escaping the
loop, if any: the `try`/`except OSError` around `os.read` turns a read error
into a `break`, so the loop ends quietly with the queue as built so far and
the remaining events unconsumed. -/
def readerRunE : List ReadEvent → List String × Option PyExc
  | [] => ([], none)
  | ReadEvent.noData :: rest => readerRunE rest
  | ReadEvent.readable ReadOutcome.err :: _ => ([], none)
  | ReadEvent.readable (ReadOutcome.bytes bs) :: rest =>
    let r := readerRunE rest
    if bs = [] then r else (decodeReplace bs :: r.1, r.2)

/-- The reader loop as the spec describes it (definition from the spec's
words, for comparison with `readerRunE`): transient read errors are treated
as loop-continuation signals, so data arriving after a transient error is
still captured. -/
def readerRunSpec : List ReadEvent → List String
  | [] => []
  | ReadEvent.noData :: rest => readerRunSpec rest
  | ReadEvent.readable ReadOutcome.err :: rest => readerRunSpec rest
  | ReadEvent.readable (ReadOutcome.bytes bs) :: rest =>
    if bs = [] then readerRunSpec rest else decodeReplace bs :: readerRunSpec rest

namespace InteractiveSession

/-- `InteractiveSession.__init__`. -/
def init (luaExecutable name : String) : InteractiveSession :=
  ⟨luaExecutable, name, none, none, none, [], false⟩

/-- `InteractiveSession.start()`: raises
`RuntimeError("Session already running")` when already running; otherwise
allocates the pty pair, spawns the process, sets `_running` and launches the
reader thread (modelled by `readerRunE`).  `masterFd`, `slaveFd` and `proc`
are the values produced by the external `pty.openpty()` and
`subprocess.Popen`. -/
def start (s : InteractiveSession) (masterFd slaveFd : Nat) (proc : Proc) :
    InteractiveSession × Except PyExc Unit :=
  if s.running then
    (s, Except.error ⟨PyExcClass.runtimeError, PyMsg.sessionAlreadyRunning⟩)
  else
    ({ s with master_fd := some masterFd, slave_fd := some slaveFd,
              process := some proc, running := true }, Except.ok ())

/-- `InteractiveSession.send_input(input_str)`: raises
`RuntimeError("Session not running")` when not running, otherwise writes the
bytes to the master descriptor (an external effect). -/
def send_input (s : InteractiveSession) (_inputStr : String) :
    InteractiveSession × Except PyExc Unit :=
  if !s.running then
    (s, Except.error ⟨PyExcClass.runtimeError, PyMsg.sessionNotRunning⟩)
  else (s, Except.ok ())

/-- `queue.Queue.get(timeout=...)`: pops the oldest buffered item; on an
empty queue it waits up to the timeout for the producer, modelled by
`arrival` — the item put within the window, if any — and raises
`queue.Empty` on expiry. -/
def queueGet (q : List String) (arrival : Option String) :
    Except PyExc (String × List String) :=
  match q with
  | h :: t => Except.ok (h, t)
  | [] =>
    match arrival with
    | some v => Except.ok (v, [])
    | none => Except.error ⟨PyExcClass.queueEmpty, PyMsg.noMsg⟩

/-- `InteractiveSession.read_output(timeout)`: returns one chunk from the
queue, waiting up to the timeout; the `except queue.Empty` handler converts
expiry into the `None` sentinel.  Any other exception would propagate (none
arises). -/
def read_output (s : InteractiveSession) (arrival : Option String) :
    InteractiveSession × Except PyExc (Option String) :=
  match queueGet s.output_queue arrival with
  | Except.ok (chunk, rest) =>
    ({ s with output_queue := rest }, Except.ok (some chunk))
  | Except.error e =>
    if e.cls = PyExcClass.queueEmpty then (s, Except.ok none)
    else (s, Except.error e)

/-- `InteractiveSession.is_running()`:
`self._running and self.process and self.process.poll() is None`. -/
def is_running (s : InteractiveSession) : Bool :=
  s.running && (match s.process with
    | some p => p.alive
    | none => false)

end InteractiveSession

/-- The externally visible calls `stop()` makes, in order. -/
inductive StopAction
  | terminate
  | waitGrace
  | kill
  | closeMaster (fd : Nat)
  | closeSlave (fd : Nat)
  deriving Repr, DecidableEq

/-- The descriptor-closing and field-clearing tail of `stop()`
(`if self.master_fd: os.close(...)`, likewise for `slave_fd`, then all three
fields set to `None`).  Python truthiness: a descriptor equal to 0 would be
skipped, hence the `fd ≠ 0` guards. -/
def stopClose (s1 : InteractiveSession) (acts : List StopAction) :
    InteractiveSession × List StopAction × Option PyExc :=
  let actsM :=
    match s1.master_fd with
    | some fd => if fd ≠ 0 then acts ++ [StopAction.closeMaster fd] else acts
    | none => acts
  let actsS :=
    match s1.slave_fd with
    | some fd => if fd ≠ 0 then actsM ++ [StopAction.closeSlave fd] else actsM
    | none => actsM
  ({ s1 with process := none, master_fd := none, slave_fd := none }, actsS, none)

/-- `InteractiveSession.stop()`: clears `_running`; if a process is held,
calls `terminate()` then `wait(timeout=2)` — which raises
`subprocess.TimeoutExpired`, propagating out of `stop()`, when the process is
still alive after the grace period — then closes the descriptors and clears
the fields.  Returns the post-state, the calls made, and the escaping
exception, if any. -/
def InteractiveSession.stop (s : InteractiveSession) :
    InteractiveSession × List StopAction × Option PyExc :=
  let s1 := { s with running := false }
  match s1.process with
  | some p =>
    if p.diesWithinGrace then
      stopClose s1 [StopAction.terminate, StopAction.waitGrace]
    else
      (s1, [StopAction.terminate, StopAction.waitGrace],
        some ⟨PyExcClass.timeoutExpired, PyMsg.noMsg⟩)
  | none => stopClose s1 []

/-- Convention-derived id of the `i`-th VM of a cluster (ordinal suffix). -/
def clusterVmId (clusterId : String) (i : Nat) : String :=
  clusterId ++ "_vm_" ++ toString i

/-- Modelled from the spec: the body of `VMManager.create_vm_cluster` is
missing from `src/pylua_vm/vm_manager.py` (the file is cut off inside the
method's docstring).  Per the spec: creates `count` VMs with deterministic
ordinal-suffix ids derived from the base id via `create_vm`; on the first
failure it stops and reports exactly the ids created so far.  Recursion over
the remaining count, `i` being the next ordinal. -/
def create_vm_cluster_go (clusterId : String) (networked : Bool) :
    VMManager → Nat → Nat → VMManager × List String × Option PyExc
  | m, _, 0 => (m, [], none)
  | m, i, Nat.succ k =>
    let vmId := clusterVmId clusterId i
    match m.create_vm vmId networked with
    | (m', Except.ok _) =>
      let r := create_vm_cluster_go clusterId networked m' (i + 1) k
      (r.1, vmId :: r.2.1, r.2.2)
    | (m', Except.error e) => (m', [], some e)

/-- Modelled from the spec: `VMManager.create_vm_cluster(cluster_id,
vm_count, networked=True)` — see `create_vm_cluster_go`. -/
def VMManager.create_vm_cluster (m : VMManager) (clusterId : String)
    (vmCount : Nat) (networked : Bool) : VMManager × List String × Option PyExc :=
  create_vm_cluster_go clusterId networked m 0 vmCount

/-- C1: for every manager state and every id already present in the VM map,
`create_vm(id)` raises the duplicate-id error (`ValueError` carrying the
"already exists" message) and leaves the manager state — in particular the
existing binding of `id` to the original VM instance — unmodified. -/
theorem create_vm_duplicate_raises_and_preserves
    (m : VMManager) (vmId : String) (vm : LuaProcess) (networked : Bool)
    (h : alookup vmId m.vms = some vm) :
    m.create_vm vmId networked
      = (m, Except.error ⟨PyExcClass.valueError, PyMsg.vmAlreadyExists vmId⟩)
    ∧ alookup vmId (m.create_vm vmId networked).1.vms = some vm := by
  have hIs : (alookup vmId m.vms).isSome = true := by simp [h]
  constructor
  · simp [VMManager.create_vm, hIs]
  · simp [VMManager.create_vm, hIs, h]

theorem create_vm_duplicate_raises_and_preserves_witness :
    alookup "a" (⟨10, "lua", [("a", ⟨"a", "lua", false⟩)], []⟩ : VMManager).vms
      = some ⟨"a", "lua", false⟩
    ∧ ((⟨10, "lua", [("a", ⟨"a", "lua", false⟩)], []⟩ : VMManager).create_vm "a" false
        = (⟨10, "lua", [("a", ⟨"a", "lua", false⟩)], []⟩,
           Except.error ⟨PyExcClass.valueError, PyMsg.vmAlreadyExists "a"⟩)
      ∧ alookup "a"
          ((⟨10, "lua", [("a", ⟨"a", "lua", false⟩)], []⟩ : VMManager).create_vm "a" false).1.vms
          = some ⟨"a", "lua", false⟩) :=
  ⟨by decide,
   create_vm_duplicate_raises_and_preserves
     ⟨10, "lua", [("a", ⟨"a", "lua", false⟩)], []⟩ "a" ⟨"a", "lua", false⟩ false (by decide)⟩

/-- C5: for every session state and producer behaviour within the timeout
window, `read_output` returns the first available buffered chunk (popping
it), and on expiry returns the `None` sentinel — never an exception. -/
theorem read_output_chunk_or_sentinel (s : InteractiveSession) (arrival : Option String) :
    (s.read_output arrival).2
      = Except.ok (s.output_queue.head?.orElse (fun _ => arrival))
    ∧ (s.read_output arrival).1.output_queue = s.output_queue.tail := by
  cases hq : s.output_queue with
  | nil =>
    cases arrival <;>
      simp [InteractiveSession.read_output, InteractiveSession.queueGet, hq, Option.orElse]
  | cons h t =>
    simp [InteractiveSession.read_output, InteractiveSession.queueGet, hq, Option.orElse]

/-- C7: for every id absent from the VM map, `execute_vm_sync` and
`execute_vm_async` both fail with the not-found `ValueError` and leave the
manager state unchanged. -/
theorem execute_unknown_id_not_found (m : VMManager) (vmId code : String)
    (t : Option Nat) (runLua : LuaProcess → String → Option Nat → ExecResult)
    (fresh : Future) (h : alookup vmId m.vms = none) :
    m.execute_vm_sync vmId code t runLua
      = (m, Except.error ⟨PyExcClass.valueError, PyMsg.vmNotFound vmId⟩)
    ∧ m.execute_vm_async vmId fresh
      = (m, Except.error ⟨PyExcClass.valueError, PyMsg.vmNotFound vmId⟩) := by
  constructor
  · simp [VMManager.execute_vm_sync, h]
  · simp [VMManager.execute_vm_async, h]

theorem execute_unknown_id_not_found_witness :
    alookup "x" (⟨10, "lua", [], []⟩ : VMManager).vms = none
    ∧ ((⟨10, "lua", [], []⟩ : VMManager).execute_vm_sync "x" "print(1)" none
        (fun _ _ _ => ⟨true, "", "", none⟩)
        = (⟨10, "lua", [], []⟩,
           Except.error ⟨PyExcClass.valueError, PyMsg.vmNotFound "x"⟩)
      ∧ (⟨10, "lua", [], []⟩ : VMManager).execute_vm_async "x"
          ⟨FutureStatus.pending, none, Except.ok ⟨true, "", "", none⟩⟩
        = (⟨10, "lua", [], []⟩,
           Except.error ⟨PyExcClass.valueError, PyMsg.vmNotFound "x"⟩)) :=
  ⟨by decide,
   execute_unknown_id_not_found ⟨10, "lua", [], []⟩ "x" "print(1)" none
     (fun _ _ _ => ⟨true, "", "", none⟩)
     ⟨FutureStatus.pending, none, Except.ok ⟨true, "", "", none⟩⟩ (by decide)⟩

/-- C10: submitting a second asynchronous operation for an id that already
tracks one — via `execute_vm_async` or any of `start_server_vm`,
`start_client_vm`, `start_p2p_vm`, each of which overwrites the stored
future — leaves the manager tracking the newly submitted future, so
`wait_for_vm`, `get_vm_status` and `cancel_vm` afterwards are determined by
that future alone; the earlier future is no longer reachable through the
manager.  (The `start_*` paths additionally require the VM to be networked,
their guard.) -/
theorem resubmit_replaces_tracked_future (m : VMManager) (vmId : String)
    (vm : LuaProcess) (fOld fresh : Future) (timeout : Nat)
    (port localPort runDuration : Nat) (host message : String)
    (peerHost : Option String) (peerPort : Option Nat)
    (hv : alookup vmId m.vms = some vm) (_hf : alookup vmId m.futures = some fOld) :
    m.execute_vm_async vmId fresh
      = ({ m with futures := aupsert vmId fresh m.futures }, Except.ok fresh)
    ∧ (vm.networked = true →
        m.start_server_vm vmId port fresh
          = ({ m with futures := aupsert vmId fresh m.futures }, Except.ok fresh)
        ∧ m.start_client_vm vmId host port message fresh
          = ({ m with futures := aupsert vmId fresh m.futures }, Except.ok fresh)
        ∧ m.start_p2p_vm vmId localPort peerHost peerPort runDuration fresh
          = ({ m with futures := aupsert vmId fresh m.futures }, Except.ok fresh))
    ∧ alookup vmId ({ m with futures := aupsert vmId fresh m.futures }
        : VMManager).futures = some fresh
    ∧ VMManager.wait_for_vm { m with futures := aupsert vmId fresh m.futures }
        vmId timeout = fresh.result timeout
    ∧ VMManager.get_vm_status { m with futures := aupsert vmId fresh m.futures }
        vmId
        = (if fresh.isCancelled then some "cancelled"
           else if fresh.done then some "done" else some "running")
    ∧ (VMManager.cancel_vm { m with futures := aupsert vmId fresh m.futures }
        vmId).2
        = (if fresh.done then false else (fresh.cancel).1) := by
  have hl : alookup vmId (aupsert vmId fresh m.futures) = some fresh :=
    alookup_aupsert_self vmId fresh m.futures
  refine ⟨?_, ?_, hl, ?_, ?_, ?_⟩
  · simp [VMManager.execute_vm_async, hv]
  · intro hnet
    refine ⟨?_, ?_, ?_⟩ <;>
      simp [VMManager.start_server_vm, VMManager.start_client_vm,
            VMManager.start_p2p_vm, hv, hnet]
  · simp [VMManager.wait_for_vm, hl]
  · simp [VMManager.get_vm_status, hl]
  · by_cases hd : fresh.done <;> simp [VMManager.cancel_vm, hl, hd]

theorem resubmit_replaces_tracked_future_witness :
    (alookup "a" (⟨10, "lua", [("a", ⟨"a", "lua", true⟩)],
        [("a", ⟨FutureStatus.finished, some 0, Except.ok ⟨true, "old", "", none⟩⟩)]⟩
          : VMManager).vms = some ⟨"a", "lua", true⟩
      ∧ alookup "a" (⟨10, "lua", [("a", ⟨"a", "lua", true⟩)],
          [("a", ⟨FutureStatus.finished, some 0, Except.ok ⟨true, "old", "", none⟩⟩)]⟩
            : VMManager).futures
        = some ⟨FutureStatus.finished, some 0, Except.ok ⟨true, "old", "", none⟩⟩)
    ∧ ((⟨10, "lua", [("a", ⟨"a", "lua", true⟩)],
          [("a", ⟨FutureStatus.finished, some 0, Except.ok ⟨true, "old", "", none⟩⟩)]⟩
            : VMManager).execute_vm_async "a"
              ⟨FutureStatus.pending, some 1, Except.ok ⟨true, "new", "", none⟩⟩
        = ({ (⟨10, "lua", [("a", ⟨"a", "lua", true⟩)],
              [("a", ⟨FutureStatus.finished, some 0,
                 Except.ok ⟨true, "old", "", none⟩⟩)]⟩ : VMManager) with
             futures := aupsert "a"
               ⟨FutureStatus.pending, some 1, Except.ok ⟨true, "new", "", none⟩⟩
               (⟨10, "lua", [("a", ⟨"a", "lua", true⟩)],
                 [("a", ⟨FutureStatus.finished, some 0,
                    Except.ok ⟨true, "old", "", none⟩⟩)]⟩ : VMManager).futures },
           Except.ok ⟨FutureStatus.pending, some 1, Except.ok ⟨true, "new", "", none⟩⟩)
      ∧ (LuaProcess.networked ⟨"a", "lua", true⟩ = true →
          (⟨10, "lua", [("a", ⟨"a", "lua", true⟩)],
            [("a", ⟨FutureStatus.finished, some 0, Except.ok ⟨true, "old", "", none⟩⟩)]⟩
              : VMManager).start_server_vm "a" 8080
                ⟨FutureStatus.pending, some 1, Except.ok ⟨true, "new", "", none⟩⟩
            = ({ (⟨10, "lua", [("a", ⟨"a", "lua", true⟩)],
                  [("a", ⟨FutureStatus.finished, some 0,
                     Except.ok ⟨true, "old", "", none⟩⟩)]⟩ : VMManager) with
                 futures := aupsert "a"
                   ⟨FutureStatus.pending, some 1, Except.ok ⟨true, "new", "", none⟩⟩
                   (⟨10, "lua", [("a", ⟨"a", "lua", true⟩)],
                     [("a", ⟨FutureStatus.finished, some 0,
                        Except.ok ⟨true, "old", "", none⟩⟩)]⟩ : VMManager).futures },
               Except.ok ⟨FutureStatus.pending, some 1,
                 Except.ok ⟨true, "new", "", none⟩⟩)
          ∧ (⟨10, "lua", [("a", ⟨"a", "lua", true⟩)],
              [("a", ⟨FutureStatus.finished, some 0, Except.ok ⟨true, "old", "", none⟩⟩)]⟩
                : VMManager).start_client_vm "a" "localhost" 8080 "hi"
                  ⟨FutureStatus.pending, some 1, Except.ok ⟨true, "new", "", none⟩⟩
              = ({ (⟨10, "lua", [("a", ⟨"a", "lua", true⟩)],
                    [("a", ⟨FutureStatus.finished, some 0,
                       Except.ok ⟨true, "old", "", none⟩⟩)]⟩ : VMManager) with
                   futures := aupsert "a"
                     ⟨FutureStatus.pending, some 1, Except.ok ⟨true, "new", "", none⟩⟩
                     (⟨10, "lua", [("a", ⟨"a", "lua", true⟩)],
                       [("a", ⟨FutureStatus.finished, some 0,
                          Except.ok ⟨true, "old", "", none⟩⟩)]⟩ : VMManager).futures },
                 Except.ok ⟨FutureStatus.pending, some 1,
                   Except.ok ⟨true, "new", "", none⟩⟩)
          ∧ (⟨10, "lua", [("a", ⟨"a", "lua", true⟩)],
              [("a", ⟨FutureStatus.finished, some 0, Except.ok ⟨true, "old", "", none⟩⟩)]⟩
                : VMManager).start_p2p_vm "a" 9000 none none 30
                  ⟨FutureStatus.pending, some 1, Except.ok ⟨true, "new", "", none⟩⟩
              = ({ (⟨10, "lua", [("a", ⟨"a", "lua", true⟩)],
                    [("a", ⟨FutureStatus.finished, some 0,
                       Except.ok ⟨true, "old", "", none⟩⟩)]⟩ : VMManager) with
                   futures := aupsert "a"
                     ⟨FutureStatus.pending, some 1, Except.ok ⟨true, "new", "", none⟩⟩
                     (⟨10, "lua", [("a", ⟨"a", "lua", true⟩)],
                       [("a", ⟨FutureStatus.finished, some 0,
                          Except.ok ⟨true, "old", "", none⟩⟩)]⟩ : VMManager).futures },
                 Except.ok ⟨FutureStatus.pending, some 1,
                   Except.ok ⟨true, "new", "", none⟩⟩))
      ∧ alookup "a" ({ (⟨10, "lua", [("a", ⟨"a", "lua", true⟩)],
            [("a", ⟨FutureStatus.finished, some 0,
               Except.ok ⟨true, "old", "", none⟩⟩)]⟩ : VMManager) with
           futures := aupsert "a"
             ⟨FutureStatus.pending, some 1, Except.ok ⟨true, "new", "", none⟩⟩
             (⟨10, "lua", [("a", ⟨"a", "lua", true⟩)],
               [("a", ⟨FutureStatus.finished, some 0,
                  Except.ok ⟨true, "old", "", none⟩⟩)]⟩ : VMManager).futures }
          : VMManager).futures
        = some ⟨FutureStatus.pending, some 1, Except.ok ⟨true, "new", "", none⟩⟩
      ∧ VMManager.wait_for_vm
          { (⟨10, "lua", [("a", ⟨"a", "lua", true⟩)],
              [("a", ⟨FutureStatus.finished, some 0,
                 Except.ok ⟨true, "old", "", none⟩⟩)]⟩ : VMManager) with
             futures := aupsert "a"
               ⟨FutureStatus.pending, some 1, Except.ok ⟨true, "new", "", none⟩⟩
               (⟨10, "lua", [("a", ⟨"a", "lua", true⟩)],
                 [("a", ⟨FutureStatus.finished, some 0,
                    Except.ok ⟨true, "old", "", none⟩⟩)]⟩ : VMManager).futures }
          "a" 7
        = Future.result ⟨FutureStatus.pending, some 1, Except.ok ⟨true, "new", "", none⟩⟩ 7
      ∧ VMManager.get_vm_status
          { (⟨10, "lua", [("a", ⟨"a", "lua", true⟩)],
              [("a", ⟨FutureStatus.finished, some 0,
                 Except.ok ⟨true, "old", "", none⟩⟩)]⟩ : VMManager) with
             futures := aupsert "a"
               ⟨FutureStatus.pending, some 1, Except.ok ⟨true, "new", "", none⟩⟩
               (⟨10, "lua", [("a", ⟨"a", "lua", true⟩)],
                 [("a", ⟨FutureStatus.finished, some 0,
                    Except.ok ⟨true, "old", "", none⟩⟩)]⟩ : VMManager).futures }
          "a"
        = (if Future.isCancelled
              ⟨FutureStatus.pending, some 1, Except.ok ⟨true, "new", "", none⟩⟩
            then some "cancelled"
           else if Future.done
              ⟨FutureStatus.pending, some 1, Except.ok ⟨true, "new", "", none⟩⟩
            then some "done" else some "running")
      ∧ (VMManager.cancel_vm
          { (⟨10, "lua", [("a", ⟨"a", "lua", true⟩)],
              [("a", ⟨FutureStatus.finished, some 0,
                 Except.ok ⟨true, "old", "", none⟩⟩)]⟩ : VMManager) with
             futures := aupsert "a"
               ⟨FutureStatus.pending, some 1, Except.ok ⟨true, "new", "", none⟩⟩
               (⟨10, "lua", [("a", ⟨"a", "lua", true⟩)],
                 [("a", ⟨FutureStatus.finished, some 0,
                    Except.ok ⟨true, "old", "", none⟩⟩)]⟩ : VMManager).futures }
          "a").2
        = (if Future.done ⟨FutureStatus.pending, some 1, Except.ok ⟨true, "new", "", none⟩⟩
            then false
           else (Future.cancel ⟨FutureStatus.pending, some 1,
                  Except.ok ⟨true, "new", "", none⟩⟩).1)) :=
  ⟨⟨by decide, by decide⟩,
   resubmit_replaces_tracked_future
     ⟨10, "lua", [("a", ⟨"a", "lua", true⟩)],
       [("a", ⟨FutureStatus.finished, some 0, Except.ok ⟨true, "old", "", none⟩⟩)]⟩
     "a" ⟨"a", "lua", true⟩
     ⟨FutureStatus.finished, some 0, Except.ok ⟨true, "old", "", none⟩⟩
     ⟨FutureStatus.pending, some 1, Except.ok ⟨true, "new", "", none⟩⟩ 7
     8080 9000 30 "localhost" "hi" none none
     (by decide) (by decide)⟩

/-- C2 counterexample: on a manager tracking an in-flight (running, not yet
completed) operation for `"a"`, `wait_for_vm("a", 5)` raises
`concurrent.futures.TimeoutError` on expiry — it does not return an
empty/sentinel result. -/
theorem wait_for_vm_timeout_raises_counterexample :
    VMManager.wait_for_vm
      ⟨10, "lua", [("a", ⟨"a", "lua", false⟩)],
        [("a", ⟨FutureStatus.running, none, Except.ok ⟨true, "", "", none⟩⟩)]⟩
      "a" 5
      = Except.error ⟨PyExcClass.futTimeoutError, PyMsg.noMsg⟩ := by
  decide

/-- C2 amended: when the tracked operation for `vmId` has not completed by
the time `wait_for_vm`'s timeout expires, the call raises
`concurrent.futures.TimeoutError` (propagated from `future.result`), rather
than returning a sentinel; the empty/sentinel convention holds for
`read_output` only. -/
theorem wait_for_vm_timeout_raises (m : VMManager) (vmId : String) (f : Future)
    (timeout tc : Nat)
    (hf : alookup vmId m.futures = some f)
    (hs : f.status = FutureStatus.pending ∨ f.status = FutureStatus.running)
    (ht : f.completesAt = some tc) (hlt : timeout < tc) :
    m.wait_for_vm vmId timeout
      = Except.error ⟨PyExcClass.futTimeoutError, PyMsg.noMsg⟩ := by
  have hnle : ¬ tc ≤ timeout := by omega
  cases hs with
  | inl hp => simp [VMManager.wait_for_vm, hf, Future.result, hp, ht, hnle]
  | inr hr => simp [VMManager.wait_for_vm, hf, Future.result, hr, ht, hnle]

theorem wait_for_vm_timeout_raises_witness :
    (alookup "a" (⟨10, "lua", [("a", ⟨"a", "lua", false⟩)],
        [("a", ⟨FutureStatus.running, some 10, Except.ok ⟨true, "", "", none⟩⟩)]⟩
          : VMManager).futures
      = some ⟨FutureStatus.running, some 10, Except.ok ⟨true, "", "", none⟩⟩
      ∧ (Future.status ⟨FutureStatus.running, some 10, Except.ok ⟨true, "", "", none⟩⟩
          = FutureStatus.pending
        ∨ Future.status ⟨FutureStatus.running, some 10, Except.ok ⟨true, "", "", none⟩⟩
          = FutureStatus.running)
      ∧ Future.completesAt ⟨FutureStatus.running, some 10, Except.ok ⟨true, "", "", none⟩⟩
        = some 10
      ∧ 5 < 10)
    ∧ VMManager.wait_for_vm
        ⟨10, "lua", [("a", ⟨"a", "lua", false⟩)],
          [("a", ⟨FutureStatus.running, some 10, Except.ok ⟨true, "", "", none⟩⟩)]⟩
        "a" 5
      = Except.error ⟨PyExcClass.futTimeoutError, PyMsg.noMsg⟩ :=
  ⟨⟨by decide, Or.inr (by decide), by decide, by decide⟩,
   wait_for_vm_timeout_raises
     ⟨10, "lua", [("a", ⟨"a", "lua", false⟩)],
       [("a", ⟨FutureStatus.running, some 10, Except.ok ⟨true, "", "", none⟩⟩)]⟩
     "a" ⟨FutureStatus.running, some 10, Except.ok ⟨true, "", "", none⟩⟩ 5 10
     (by decide) (Or.inr (by decide)) (by decide) (by decide)⟩

/-- C6 counterexample: a pending operation is cancelled once
(`cancel_vm` returns true) and then cancelled again: the operation never
started executing — its tracked future went `pending → cancelled`, never
`running` — yet the second `cancel_vm` returns false, refuting "true if and
only if the operation had not yet started executing". -/
theorem cancel_vm_not_started_counterexample :
    ((VMManager.cancel_vm
        ⟨10, "lua", [("a", ⟨"a", "lua", false⟩)],
          [("a", ⟨FutureStatus.pending, none, Except.ok ⟨true, "", "", none⟩⟩)]⟩
        "a").2 = true)
    ∧ alookup "a"
        ((VMManager.cancel_vm
          ⟨10, "lua", [("a", ⟨"a", "lua", false⟩)],
            [("a", ⟨FutureStatus.pending, none, Except.ok ⟨true, "", "", none⟩⟩)]⟩
          "a").1).futures
      = some ⟨FutureStatus.cancelled, none, Except.ok ⟨true, "", "", none⟩⟩
    ∧ (((VMManager.cancel_vm
          ⟨10, "lua", [("a", ⟨"a", "lua", false⟩)],
            [("a", ⟨FutureStatus.pending, none, Except.ok ⟨true, "", "", none⟩⟩)]⟩
          "a").1.cancel_vm "a").2 = false) := by
  decide

/-- C6 amended: `cancel_vm(id)` returns true iff the tracked operation is
still pending — submitted, not yet started executing, and not already
cancelled; it returns false for running, completed and previously cancelled
operations (and when no operation is tracked). -/
theorem cancel_vm_true_iff_pending (m : VMManager) (vmId : String) (f : Future)
    (hf : alookup vmId m.futures = some f) :
    (m.cancel_vm vmId).2 = true ↔ f.status = FutureStatus.pending := by
  cases hs : f.status <;>
    simp [VMManager.cancel_vm, hf, Future.done, Future.cancel, hs]

theorem cancel_vm_true_iff_pending_witness :
    alookup "a" (⟨10, "lua", [("a", ⟨"a", "lua", false⟩)],
        [("a", ⟨FutureStatus.pending, none, Except.ok ⟨true, "", "", none⟩⟩)]⟩
          : VMManager).futures
      = some ⟨FutureStatus.pending, none, Except.ok ⟨true, "", "", none⟩⟩
    ∧ (((⟨10, "lua", [("a", ⟨"a", "lua", false⟩)],
          [("a", ⟨FutureStatus.pending, none, Except.ok ⟨true, "", "", none⟩⟩)]⟩
            : VMManager).cancel_vm "a").2 = true
        ↔ Future.status ⟨FutureStatus.pending, none, Except.ok ⟨true, "", "", none⟩⟩
            = FutureStatus.pending) :=
  ⟨by decide,
   cancel_vm_true_iff_pending
     ⟨10, "lua", [("a", ⟨"a", "lua", false⟩)],
       [("a", ⟨FutureStatus.pending, none, Except.ok ⟨true, "", "", none⟩⟩)]⟩
     "a" ⟨FutureStatus.pending, none, Except.ok ⟨true, "", "", none⟩⟩ (by decide)⟩

/-- C8 counterexample: the error raised for a duplicate id on `create_vm`
and the error raised for an unknown id on `execute_vm_sync` have the same
exception class (`ValueError`), so a caller cannot branch on the kind
alone. -/
theorem error_kinds_not_distinct_counterexample :
    ((⟨10, "lua", [("a", ⟨"a", "lua", false⟩)], []⟩ : VMManager).create_vm "a" false).2
      = Except.error ⟨PyExcClass.valueError, PyMsg.vmAlreadyExists "a"⟩
    ∧ ((⟨10, "lua", [], []⟩ : VMManager).execute_vm_sync "b" "x" none
        (fun _ _ _ => ⟨true, "", "", none⟩)).2
      = Except.error ⟨PyExcClass.valueError, PyMsg.vmNotFound "b"⟩
    ∧ (⟨PyExcClass.valueError, PyMsg.vmAlreadyExists "a"⟩ : PyExc).cls
      = (⟨PyExcClass.valueError, PyMsg.vmNotFound "b"⟩ : PyExc).cls := by
  decide

/-- C8 amended: failing manager operations raise generic built-in exception
classes, not a taxonomy of specific kinds: a duplicate id on `create_vm` and
an unknown id on `execute_vm_sync` both raise `ValueError`, distinguished
only by message; `InteractiveSession.start` on a running session raises
`RuntimeError`.  A caller must branch on the message, not the kind. -/
theorem failing_ops_use_generic_kinds (m1 m2 : VMManager) (id1 id2 code : String)
    (vm : LuaProcess) (t : Option Nat)
    (runLua : LuaProcess → String → Option Nat → ExecResult)
    (s : InteractiveSession) (mfd sfd : Nat) (p : Proc)
    (h1 : alookup id1 m1.vms = some vm) (h2 : alookup id2 m2.vms = none)
    (hs : s.running = true) :
    ∃ e1 e2 : PyExc,
      (m1.create_vm id1 false).2 = Except.error e1
      ∧ (m2.execute_vm_sync id2 code t runLua).2 = Except.error e2
      ∧ e1.cls = PyExcClass.valueError ∧ e2.cls = PyExcClass.valueError
      ∧ e1.msg ≠ e2.msg
      ∧ (s.start mfd sfd p).2
          = Except.error ⟨PyExcClass.runtimeError, PyMsg.sessionAlreadyRunning⟩ := by
  have hIs : (alookup id1 m1.vms).isSome = true := by simp [h1]
  refine ⟨⟨PyExcClass.valueError, PyMsg.vmAlreadyExists id1⟩,
          ⟨PyExcClass.valueError, PyMsg.vmNotFound id2⟩, ?_, ?_, rfl, rfl, ?_, ?_⟩
  · simp [VMManager.create_vm, hIs]
  · simp [VMManager.execute_vm_sync, h2]
  · intro hmsg
    cases hmsg
  · simp [InteractiveSession.start, hs]

theorem failing_ops_use_generic_kinds_witness :
    (alookup "a" (⟨10, "lua", [("a", ⟨"a", "lua", false⟩)], []⟩ : VMManager).vms
        = some ⟨"a", "lua", false⟩
      ∧ alookup "b" (⟨10, "lua", [], []⟩ : VMManager).vms = none
      ∧ (⟨"lua", "s", some ⟨true, true⟩, some 3, some 4, [], true⟩
          : InteractiveSession).running = true)
    ∧ (∃ e1 e2 : PyExc,
        ((⟨10, "lua", [("a", ⟨"a", "lua", false⟩)], []⟩ : VMManager).create_vm "a" false).2
          = Except.error e1
        ∧ ((⟨10, "lua", [], []⟩ : VMManager).execute_vm_sync "b" "x" none
            (fun _ _ _ => ⟨true, "", "", none⟩)).2 = Except.error e2
        ∧ e1.cls = PyExcClass.valueError ∧ e2.cls = PyExcClass.valueError
        ∧ e1.msg ≠ e2.msg
        ∧ ((⟨"lua", "s", some ⟨true, true⟩, some 3, some 4, [], true⟩
            : InteractiveSession).start 5 6 ⟨true, true⟩).2
          = Except.error ⟨PyExcClass.runtimeError, PyMsg.sessionAlreadyRunning⟩) :=
  ⟨⟨by decide, by decide, by decide⟩,
   failing_ops_use_generic_kinds
     ⟨10, "lua", [("a", ⟨"a", "lua", false⟩)], []⟩ ⟨10, "lua", [], []⟩
     "a" "b" "x" ⟨"a", "lua", false⟩ none (fun _ _ _ => ⟨true, "", "", none⟩)
     ⟨"lua", "s", some ⟨true, true⟩, some 3, some 4, [], true⟩ 5 6 ⟨true, true⟩
     (by decide) (by decide) (by decide)⟩

/-- C3 counterexample: after a transient `OSError` on `os.read`, the reader
loop breaks immediately — data becoming readable right afterwards is never
enqueued — so transient read errors are not treated as loop-continuation
signals (`readerRunSpec` is the behaviour the claim describes). -/
theorem reader_transient_error_counterexample :
    readerRunE [ReadEvent.readable ReadOutcome.err,
                ReadEvent.readable (ReadOutcome.bytes [111, 107])]
      = ([], none)
    ∧ readerRunSpec [ReadEvent.readable ReadOutcome.err,
                ReadEvent.readable (ReadOutcome.bytes [111, 107])]
      = ["ok"]
    ∧ ([] : List String) ≠ ["ok"] := by
  decide

/-- C3 amended: the background reader never lets an exception escape the
loop, but it does not distinguish transient from terminal read errors: the
first `OSError` raised by `os.read` ends the loop quietly, with the queue as
built so far and all later events unprocessed; undecodable bytes are
substituted (decoding is total, one character per byte in this model), never
a failure. -/
theorem reader_exits_quietly_on_first_error :
    (∀ evs : List ReadEvent, (readerRunE evs).2 = none)
    ∧ (∀ rest : List ReadEvent,
        readerRunE (ReadEvent.readable ReadOutcome.err :: rest) = ([], none))
    ∧ (∀ bs : List Nat, (decodeReplace bs).length = bs.length) := by
  refine ⟨?_, ?_, ?_⟩
  · intro evs
    induction evs with
    | nil => rfl
    | cons ev rest ih =>
      cases ev with
      | noData => simpa [readerRunE] using ih
      | readable o =>
        cases o with
        | err => rfl
        | bytes bs =>
          by_cases hbs : bs = [] <;> simp [readerRunE, hbs, ih]
  · intro rest
    rfl
  · intro bs
    simp [decodeReplace, String.length]

/-- C4 counterexample: on a started session whose process does not exit
within the 2-second grace period, `stop()` raises
`subprocess.TimeoutExpired` (from `wait(timeout=2)`): it never force-kills
— no `kill` call appears in its trace — and both pseudo-terminal
descriptors are left open. -/
theorem stop_no_force_kill_counterexample :
    InteractiveSession.stop
        ⟨"lua", "vm", some ⟨true, false⟩, some 3, some 4, [], true⟩
      = (⟨"lua", "vm", some ⟨true, false⟩, some 3, some 4, [], false⟩,
         [StopAction.terminate, StopAction.waitGrace],
         some ⟨PyExcClass.timeoutExpired, PyMsg.noMsg⟩)
    ∧ StopAction.kill ∉ [StopAction.terminate, StopAction.waitGrace]
    ∧ (InteractiveSession.stop
        ⟨"lua", "vm", some ⟨true, false⟩, some 3, some 4, [], true⟩).1.master_fd
      = some 3 := by
  decide

/-- C4 amended: `stop()` on a started session sets the running flag to
false, requests termination and waits the 2-second grace period; when the
process exits within that period it closes both pseudo-terminal descriptors,
clears the fields, and a second `stop()` is a safe no-op; when the process
is still alive after the period it raises `subprocess.TimeoutExpired`
— there is no force-kill, and the descriptors stay open in that case. -/
theorem stop_graceful_then_idempotent (s : InteractiveSession) (p : Proc)
    (mfd sfd : Nat)
    (hp : s.process = some p) (hm : s.master_fd = some mfd)
    (hsl : s.slave_fd = some sfd) (hm0 : mfd ≠ 0) (hs0 : sfd ≠ 0) :
    (p.diesWithinGrace = true →
      s.stop = ({ s with running := false, process := none,
                         master_fd := none, slave_fd := none },
                [StopAction.terminate, StopAction.waitGrace,
                 StopAction.closeMaster mfd, StopAction.closeSlave sfd], none)
      ∧ (s.stop).1.stop = ((s.stop).1, [], none))
    ∧ (p.diesWithinGrace = false →
      s.stop = ({ s with running := false },
                [StopAction.terminate, StopAction.waitGrace],
                some ⟨PyExcClass.timeoutExpired, PyMsg.noMsg⟩))
    ∧ StopAction.kill ∉ (s.stop).2.1 := by
  obtain ⟨le, nm, pr, m0, s0, q, run⟩ := s
  simp only [] at hp hm hsl
  subst hp hm hsl
  refine ⟨?_, ?_, ?_⟩
  · intro hd
    constructor
    · simp [InteractiveSession.stop, stopClose, hd, hm0, hs0]
    · simp [InteractiveSession.stop, stopClose, hd, hm0, hs0]
  · intro hd
    simp [InteractiveSession.stop, stopClose, hd]
  · cases hd : p.diesWithinGrace <;>
      simp [InteractiveSession.stop, stopClose, hd, hm0, hs0]

theorem stop_graceful_then_idempotent_witness :
    ((⟨"lua", "vm", some ⟨true, true⟩, some 3, some 4, [], true⟩
        : InteractiveSession).process = some ⟨true, true⟩
      ∧ (⟨"lua", "vm", some ⟨true, true⟩, some 3, some 4, [], true⟩
          : InteractiveSession).master_fd = some 3
      ∧ (⟨"lua", "vm", some ⟨true, true⟩, some 3, some 4, [], true⟩
          : InteractiveSession).slave_fd = some 4
      ∧ (3 : Nat) ≠ 0 ∧ (4 : Nat) ≠ 0)
    ∧ ((Proc.diesWithinGrace ⟨true, true⟩ = true →
        (⟨"lua", "vm", some ⟨true, true⟩, some 3, some 4, [], true⟩
            : InteractiveSession).stop
          = (⟨"lua", "vm", none, none, none, [], false⟩,
             [StopAction.terminate, StopAction.waitGrace,
              StopAction.closeMaster 3, StopAction.closeSlave 4], none)
        ∧ ((⟨"lua", "vm", some ⟨true, true⟩, some 3, some 4, [], true⟩
            : InteractiveSession).stop).1.stop
          = (((⟨"lua", "vm", some ⟨true, true⟩, some 3, some 4, [], true⟩
              : InteractiveSession).stop).1, [], none))
      ∧ (Proc.diesWithinGrace ⟨true, true⟩ = false →
        (⟨"lua", "vm", some ⟨true, true⟩, some 3, some 4, [], true⟩
            : InteractiveSession).stop
          = (⟨"lua", "vm", some ⟨true, true⟩, some 3, some 4, [], false⟩,
             [StopAction.terminate, StopAction.waitGrace],
             some ⟨PyExcClass.timeoutExpired, PyMsg.noMsg⟩))
      ∧ StopAction.kill ∉ ((⟨"lua", "vm", some ⟨true, true⟩, some 3, some 4, [], true⟩
          : InteractiveSession).stop).2.1) :=
  ⟨⟨by decide, by decide, by decide, by decide, by decide⟩,
   stop_graceful_then_idempotent
     ⟨"lua", "vm", some ⟨true, true⟩, some 3, some 4, [], true⟩
     ⟨true, true⟩ 3 4 (by decide) (by decide) (by decide) (by decide) (by decide)⟩

/-- The state change of one successful iteration of the cluster loop: the
derived id is bound to a fresh VM instance. -/
def clusterStep (clusterId : String) (networked : Bool) (m : VMManager) (i : Nat) :
    VMManager :=
  { m with
    vms := aupsert (clusterVmId clusterId i)
             ⟨clusterVmId clusterId i, m.luaExecutable, networked⟩ m.vms }

theorem cluster_go_succ_dup (clusterId : String) (networked : Bool)
    (m : VMManager) (i k : Nat)
    (hdup : (alookup (clusterVmId clusterId i) m.vms).isSome = true) :
    create_vm_cluster_go clusterId networked m i (k + 1)
      = (m, [], some ⟨PyExcClass.valueError,
                      PyMsg.vmAlreadyExists (clusterVmId clusterId i)⟩) := by
  simp [create_vm_cluster_go, VMManager.create_vm, hdup]

theorem cluster_go_succ_fresh (clusterId : String) (networked : Bool)
    (m : VMManager) (i k : Nat)
    (hfresh : alookup (clusterVmId clusterId i) m.vms = none) :
    create_vm_cluster_go clusterId networked m i (k + 1)
      = ((create_vm_cluster_go clusterId networked
            (clusterStep clusterId networked m i) (i + 1) k).1,
         clusterVmId clusterId i
           :: (create_vm_cluster_go clusterId networked
                (clusterStep clusterId networked m i) (i + 1) k).2.1,
         (create_vm_cluster_go clusterId networked
            (clusterStep clusterId networked m i) (i + 1) k).2.2) := by
  simp [create_vm_cluster_go, VMManager.create_vm, hfresh, clusterStep]

theorem range_map_shift (f : Nat → String) (j : Nat) :
    (List.range (j + 1)).map f = f 0 :: (List.range j).map (fun t => f (t + 1)) := by
  rw [List.range_succ_eq_map, List.map_cons, List.map_map]
  rfl

theorem cluster_range_shift (clusterId : String) (i j' : Nat) :
    (List.range (j' + 1)).map (fun t => clusterVmId clusterId (i + t))
      = clusterVmId clusterId i
        :: (List.range j').map (fun t => clusterVmId clusterId (i + 1 + t)) := by
  rw [range_map_shift]
  rw [Nat.add_zero]
  exact congrArg (List.cons (clusterVmId clusterId i))
    (List.map_congr_left (fun t _ => by congr 1; omega))

/-- Main invariant of the (spec-modelled) cluster-creation loop: the
reported ids are a prefix of the derived naming sequence (all of it when no
error is reported), pairwise distinct, each one fresh before the loop and
bound to a VM after it; bindings of all other ids are untouched. -/
theorem cluster_go_spec (clusterId : String) (networked : Bool) :
    ∀ (k i : Nat) (m : VMManager),
      (∃ j, j ≤ k
        ∧ (create_vm_cluster_go clusterId networked m i k).2.1
            = (List.range j).map (fun t => clusterVmId clusterId (i + t))
        ∧ ((create_vm_cluster_go clusterId networked m i k).2.2 = none → j = k))
      ∧ (∀ vmId ∈ (create_vm_cluster_go clusterId networked m i k).2.1,
          alookup vmId m.vms = none
          ∧ ∃ vm, alookup vmId (create_vm_cluster_go clusterId networked m i k).1.vms
              = some vm)
      ∧ (create_vm_cluster_go clusterId networked m i k).2.1.Nodup
      ∧ (∀ vmId, (alookup vmId m.vms).isSome = true →
          alookup vmId (create_vm_cluster_go clusterId networked m i k).1.vms
            = alookup vmId m.vms)
      ∧ (∀ vmId, vmId ∉ (create_vm_cluster_go clusterId networked m i k).2.1 →
          alookup vmId (create_vm_cluster_go clusterId networked m i k).1.vms
            = alookup vmId m.vms) := by
  intro k
  induction k with
  | zero =>
    intro i m
    refine ⟨⟨0, Nat.le_refl 0, by simp [create_vm_cluster_go], fun _ => rfl⟩,
            ?_, ?_, ?_, ?_⟩ <;> simp [create_vm_cluster_go]
  | succ k ih =>
    intro i m
    cases hfresh : alookup (clusterVmId clusterId i) m.vms with
    | some vm0 =>
      have hdup : (alookup (clusterVmId clusterId i) m.vms).isSome = true := by
        simp [hfresh]
      rw [cluster_go_succ_dup clusterId networked m i k hdup]
      refine ⟨⟨0, Nat.zero_le _, by simp, by intro h; cases h⟩, ?_, ?_, ?_, ?_⟩ <;> simp
    | none =>
      rw [cluster_go_succ_fresh clusterId networked m i k hfresh]
      dsimp only
      obtain ⟨⟨j', hj'le, hids', himp'⟩, hmem', hnodup', hpres', hnew'⟩ :=
        ih (i + 1) (clusterStep clusterId networked m i)
      have hself : alookup (clusterVmId clusterId i)
          (clusterStep clusterId networked m i).vms
          = some ⟨clusterVmId clusterId i, m.luaExecutable, networked⟩ :=
        alookup_aupsert_self _ _ _
      have hne_lookup : ∀ vmId0, vmId0 ≠ clusterVmId clusterId i →
          alookup vmId0 (clusterStep clusterId networked m i).vms
            = alookup vmId0 m.vms := by
        intro vmId0 hne
        exact alookup_aupsert_ne _ _ _ (fun h => hne h.symm) _
      refine ⟨⟨j' + 1, by omega, ?_, ?_⟩, ?_, ?_, ?_, ?_⟩
      · rw [hids', cluster_range_shift]
      · intro hnone
        have := himp' hnone
        omega
      · intro vmId0 hmem0
        rcases List.mem_cons.mp hmem0 with heq | hmemR
        · subst heq
          refine ⟨hfresh, ⟨⟨clusterVmId clusterId i, m.luaExecutable, networked⟩, ?_⟩⟩
          have hsome : (alookup (clusterVmId clusterId i)
              (clusterStep clusterId networked m i).vms).isSome = true := by
            simp [hself]
          rw [hpres' _ hsome, hself]
        · obtain ⟨hfreshM', hbound⟩ := hmem' vmId0 hmemR
          have hne : vmId0 ≠ clusterVmId clusterId i := by
            intro h
            rw [h, hself] at hfreshM'
            cases hfreshM'
          exact ⟨by rw [← hne_lookup vmId0 hne]; exact hfreshM', hbound⟩
      · refine List.nodup_cons.mpr ⟨?_, hnodup'⟩
        intro hmem0
        obtain ⟨hfreshM', _⟩ := hmem' _ hmem0
        rw [hself] at hfreshM'
        cases hfreshM'
      · intro vmId0 hsome
        have hne : vmId0 ≠ clusterVmId clusterId i := by
          intro h
          rw [h, hfresh] at hsome
          cases hsome
        have hsome' : (alookup vmId0 (clusterStep clusterId networked m i).vms).isSome
            = true := by
          rw [hne_lookup vmId0 hne]
          exact hsome
        rw [hpres' vmId0 hsome', hne_lookup vmId0 hne]
      · intro vmId0 hnotin
        have hne : vmId0 ≠ clusterVmId clusterId i :=
          fun h => hnotin (h ▸ List.mem_cons_self _ _)
        have hnotinR : vmId0 ∉ (create_vm_cluster_go clusterId networked
            (clusterStep clusterId networked m i) (i + 1) k).2.1 :=
          fun h => hnotin (List.mem_cons_of_mem _ h)
        rw [hnew' vmId0 hnotinR, hne_lookup vmId0 hne]

/-- C9 (spec-modelled, `create_vm_cluster`'s body is missing from the
source): for every base id and count, the cluster call reports a prefix of
the deterministic ordinal-suffix naming sequence — all `count` ids exactly
when no error is reported — the reported ids are pairwise distinct, each
reported id is bound to a VM and is usable via `execute_vm_sync`, and no
other binding of the manager is touched, so the reported list is exactly the
set of ids that succeeded. -/
theorem create_vm_cluster_reports_exact_cluster (m : VMManager)
    (clusterId : String) (vmCount : Nat) (networked : Bool) :
    (∃ j, j ≤ vmCount
      ∧ (m.create_vm_cluster clusterId vmCount networked).2.1
          = (List.range j).map (clusterVmId clusterId)
      ∧ ((m.create_vm_cluster clusterId vmCount networked).2.2 = none → j = vmCount))
    ∧ (m.create_vm_cluster clusterId vmCount networked).2.1.Nodup
    ∧ (∀ vmId ∈ (m.create_vm_cluster clusterId vmCount networked).2.1,
        alookup vmId m.vms = none
        ∧ ∃ vm,
          alookup vmId (m.create_vm_cluster clusterId vmCount networked).1.vms
            = some vm
          ∧ ∀ code t runLua,
            ((m.create_vm_cluster clusterId vmCount networked).1.execute_vm_sync
                vmId code t runLua).2
              = Except.ok (runLua vm code t))
    ∧ (∀ vmId, vmId ∉ (m.create_vm_cluster clusterId vmCount networked).2.1 →
        alookup vmId (m.create_vm_cluster clusterId vmCount networked).1.vms
          = alookup vmId m.vms) := by
  obtain ⟨⟨j, hjle, hids, himp⟩, hmem, hnodup, _hpres, hnew⟩ :=
    cluster_go_spec clusterId networked vmCount 0 m
  have hmap : (List.range j).map (fun t => clusterVmId clusterId (0 + t))
      = (List.range j).map (clusterVmId clusterId) :=
    List.map_congr_left (fun t _ => by rw [Nat.zero_add])
  refine ⟨⟨j, hjle, ?_, himp⟩, hnodup, ?_, hnew⟩
  · rw [VMManager.create_vm_cluster, hids, hmap]
  · intro vmId hmemId
    obtain ⟨hfresh0, vm, hbound⟩ := hmem vmId hmemId
    refine ⟨hfresh0, vm, hbound, ?_⟩
    intro code t runLua
    simp [VMManager.execute_vm_sync, VMManager.create_vm_cluster, hbound]
